import Mathlib

/-!
Verification of the FTMap hotspot HCA pipeline scripts
(`hca_all_analysis.py`, `hca_HO.py`, `hca_jaccard.py`, `hca_overlap.py`,
`hca_Euclidian.py`) against their natural-language specification.

The scripts are straight-line PyMOL pipelines.  We embed them shallowly:
each external collaborator call (load_ftmap, pm.align, plot_pairwise_hca,
plot_euclidean_hca, plt.title / plt.savefig / plt.close) is recorded as an
event in a trace, and a script is a function from an environment (the
collaborators' observable behaviour) to a trace paired with an
`Except String Unit` outcome mirroring Python's raise/no-raise result.
Numeric time values are rationals; Python integer arithmetic is `Nat`.
-/

namespace FTMapHCA

/-- Substring containment on strings, via infix of the character lists.
`strContains s t` says `t` occurs verbatim inside `s`. -/
def strContains (s t : String) : Prop := t.data <:+: s.data

instance (s t : String) : Decidable (strContains s t) := List.decidableInfix _ _

/-- One observable collaborator call made by a script. -/
inductive Call where
  /-- `load_ftmap(path)` -/
  | load (path : String)
  /-- `pm.align(moving, ref)` -/
  | align (moving ref : String)
  /-- a warning line printed for a recovered per-item failure -/
  | warn (msg : String)
  /-- `plot_pairwise_hca(sel, function=fn, align=alignFlag, radius=radius, ...)` -/
  | pairwise (sel fn : String) (alignFlag : Bool) (radius : ℚ)
  /-- `plot_euclidean_hca(sel, properties=["S0","CD","MD"], normalize=True, linkage_method="ward", ...)` -/
  | euclidean (sel : String)
  /-- `plt.title(t)` -/
  | setTitle (t : String)
  /-- `plt.savefig(path, dpi=300, bbox_inches="tight")` -/
  | save (path : String)
  /-- `plt.close()` -/
  | closeFig
deriving DecidableEq

/-- Is the call an invocation of a clustering collaborator? -/
def isClusterCall : Call → Bool
  | Call.pairwise _ _ _ _ => true
  | Call.euclidean _ => true
  | _ => false

/-- The observable behaviour of the external collaborators, fixed for a run:
the glob result, `pm.get_object_list()`, the size of
`pm.get_object_list(sel)` for a selection string, and the outcome of each
`pm.align` / `plot_pairwise_hca` / `plot_euclidean_hca` call. -/
structure Env where
  files : List String
  objectList : List String
  selCount : String → ℕ
  alignRes : String → Except String Unit
  pairwiseRes : String → String → Except String Unit
  euclideanRes : String → Except String Unit

/-- `HOTSPOT_SEL = f"((*.B* *.D*) AND p.S0>{S0_CUTOFF})"` -/
def hotspotSel (cutoff : ℤ) : String :=
  "((*.B* *.D*) AND p.S0>" ++ toString cutoff ++ ")"

/-- The selection passed to `plot_euclidean_hca`:
`f"*.K15_* AND p.S0>{S0_CUTOFF}"` -/
def euclideanSel (cutoff : ℤ) : String :=
  "*.K15_* AND p.S0>" ++ toString cutoff

/-- Message of the hotspot-count RuntimeError in `hca_all_analysis.py`
(lines 113-116). -/
def allAnalysisHotspotMsg (k : ℕ) (cutoff : ℤ) : String :=
  "Only " ++ toString k ++ " hotspots found with S0 > " ++ toString cutoff ++
    ". At least two are required for HCA."

/-- Hotspot validation of `hca_all_analysis.py` (lines 112-116). -/
def allAnalysisHotspotCheck (k : ℕ) (cutoff : ℤ) : Except String Unit :=
  if k < 2 then Except.error (allAnalysisHotspotMsg k cutoff) else Except.ok ()

/-- Message of the hotspot-count RuntimeError in `hca_HO.py` (lines 101-104). -/
def hoHotspotMsg (k : ℕ) (cutoff : ℤ) : String :=
  "Only " ++ toString k ++ " hotspots found with S0 > " ++ toString cutoff ++
    ". At least two are required for HO analysis."

/-- Hotspot validation of `hca_HO.py` (lines 100-104). -/
def hoHotspotCheck (k : ℕ) (cutoff : ℤ) : Except String Unit :=
  if k < 2 then Except.error (hoHotspotMsg k cutoff) else Except.ok ()

/-- Message of the hotspot-count RuntimeError in `hca_overlap.py` (lines 75-78). -/
def overlapHotspotMsg (k : ℕ) (cutoff : ℤ) : String :=
  "Only " ++ toString k ++ " hotspots found with S0 > " ++ toString cutoff ++
    ". At least two are required for overlap analysis."

/-- Hotspot validation of `hca_overlap.py` (lines 74-78). -/
def overlapHotspotCheck (k : ℕ) (cutoff : ℤ) : Except String Unit :=
  if k < 2 then Except.error (overlapHotspotMsg k cutoff) else Except.ok ()

/-- Message of the hotspot-count RuntimeError in `hca_jaccard.py` (line 66);
it interpolates neither the observed count nor the cutoff. -/
def jaccardHotspotMsg : String := "Not enough hotspots for Jaccard analysis"

/-- Hotspot validation of `hca_jaccard.py` (lines 65-66). -/
def jaccardHotspotCheck (k : ℕ) : Except String Unit :=
  if k < 2 then Except.error jaccardHotspotMsg else Except.ok ()

/-- Hard-coded HO plot title, `hca_all_analysis.py` line 136 / `hca_HO.py`
line 122.  Note the literal `20`: the title does not interpolate `S0_CUTOFF`. -/
def hoTitle : String := "Hotspot Overlap (HO) | S0 > 20"

/-- Hard-coded Jaccard plot title, `hca_all_analysis.py` line 158 /
`hca_jaccard.py` line 79. -/
def jaccardTitle : String := "Residue Jaccard Similarity | S0 > 20"

/-- Hard-coded residue-overlap plot title, `hca_all_analysis.py` line 180 /
`hca_overlap.py` line 94. -/
def overlapTitle : String := "Residue Overlap Similarity | S0 > 20"

/-- Hard-coded Euclidean plot title, `hca_all_analysis.py` line 201 /
`hca_Euclidian.py` line 69. -/
def euclTitle : String := "Euclidean HCA (S0 + CD + MD) | S0 > 20"

/-- One clustering job block: the clustering call, then (only when it
returned normally) `plt.title`, `plt.savefig`, `plt.close`.  There is no
try/finally in any of the scripts, so an exception from the clustering
call propagates before the close. -/
def jobBlock (c : Call) (res : Except String Unit) (t out : String) :
    List Call × Except String Unit :=
  match res with
  | Except.error e => ([c], Except.error e)
  | Except.ok () => ([c, Call.setTitle t, Call.save out, Call.closeFig], Except.ok ())

/-- Sequential composition of straight-line blocks: a raised exception in
one block stops the script, so later blocks do not run. -/
def seqBlocks : List (List Call × Except String Unit) → List Call × Except String Unit
  | [] => ([], Except.ok ())
  | (tr, r) :: rest =>
    match r with
    | Except.error e => (tr, Except.error e)
    | Except.ok () =>
      let (tr2, r2) := seqBlocks rest
      (tr ++ tr2, r2)

/-- Alignment block of `hca_all_analysis.py` (lines 93-101): `ref = objs[0]`
(an IndexError when the list is empty), then for each remaining object
`try: pm.align(obj, ref) except: pass` — every remaining object is
attempted and all failures are swallowed without any record. -/
def allAnalysisAlignStage (objs : List String)
    (_ar : String → Except String Unit) : List Call × Except String Unit :=
  match objs with
  | [] => ([], Except.error "IndexError: list index out of range")
  | ref :: rest => (rest.map (fun o => Call.align o ref), Except.ok ())

/-- Alignment loop body of `hca_HO.py` (lines 87-92): each remaining
protein is attempted; a failure prints a warning line and the loop
continues. -/
def hoAlignGo (ref : String) (ar : String → Except String Unit) :
    List String → List Call
  | [] => []
  | o :: rest =>
    match ar o with
    | Except.error e =>
        Call.align o ref ::
          Call.warn ("⚠️ Alignment failed for " ++ o ++ ": " ++ e) ::
            hoAlignGo ref ar rest
    | Except.ok () => Call.align o ref :: hoAlignGo ref ar rest

/-- Alignment stage of `hca_HO.py` (lines 76-92): the protein count is
checked before any alignment call; with fewer than 2 proteins a
RuntimeError is raised first. -/
def hoAlignStage (proteins : List String)
    (ar : String → Except String Unit) : List Call × Except String Unit :=
  if proteins.length < 2 then
    ([], Except.error "Not enough protein structures for alignment.")
  else
    match proteins with
    | [] => ([], Except.ok ())
    | ref :: rest => (hoAlignGo ref ar rest, Except.ok ())

/-- Unguarded alignment loop body of `hca_jaccard.py` (lines 61-62) and
`hca_overlap.py` (lines 67-68): no try/except, so the first `pm.align`
failure propagates and stops the loop. -/
def rawAlignGo (ref : String) (ar : String → Except String Unit) :
    List String → List Call × Except String Unit
  | [] => ([], Except.ok ())
  | o :: rest =>
    match ar o with
    | Except.error e => ([Call.align o ref], Except.error e)
    | Except.ok () =>
      let (tr, r) := rawAlignGo ref ar rest
      (Call.align o ref :: tr, r)

/-- Alignment stage of `hca_jaccard.py` (lines 59-62) and `hca_overlap.py`
(lines 64-68): `ref = objs[0]` with no count check and no exception
handling around `pm.align`. -/
def rawAlignStage (objs : List String)
    (ar : String → Except String Unit) : List Call × Except String Unit :=
  match objs with
  | [] => ([], Except.error "IndexError: list index out of range")
  | ref :: rest => rawAlignGo ref ar rest

/-- `ALIGN_STRUCTURES = True`, `hca_all_analysis.py` line 38. -/
def ALIGN_STRUCTURES : Bool := true

/-- The list of artifact paths printed by the final report of
`hca_all_analysis.py` (lines 214-217), in print order. -/
def allAnalysisReport (stem : String) : List String :=
  [stem ++ "_01_HO_dendrogram.png",
   stem ++ "_02_Jaccard_dendrogram.png",
   stem ++ "_03_Overlap_dendrogram.png",
   stem ++ "_04_Euclidean_HCA.png"]

/-- The whole `hca_all_analysis.py` run (lines 71-217): glob-count check,
load loop, conditional alignment block, hotspot validation, then the four
clustering job blocks in declaration order. -/
def allAnalysisPipeline (env : Env) (cutoff : ℤ) (stem : String) :
    List Call × Except String Unit :=
  if env.files.length = 0 then
    ([], Except.error "No FTMap PDB files found. Check BASE_PATH.")
  else
    let loadTrace := env.files.map Call.load
    let (alignTrace, alignOutcome) :=
      if ALIGN_STRUCTURES then allAnalysisAlignStage env.objectList env.alignRes
      else ([], Except.ok ())
    match alignOutcome with
    | Except.error e => (loadTrace ++ alignTrace, Except.error e)
    | Except.ok () =>
      let sel := hotspotSel cutoff
      match allAnalysisHotspotCheck (env.selCount sel) cutoff with
      | Except.error e => (loadTrace ++ alignTrace, Except.error e)
      | Except.ok () =>
        let (jt, jr) := seqBlocks
          [jobBlock (Call.pairwise sel "ho" false (3/2))
              (env.pairwiseRes sel "ho") hoTitle (stem ++ "_01_HO_dendrogram.png"),
           jobBlock (Call.pairwise sel "jaccard" true 5)
              (env.pairwiseRes sel "jaccard") jaccardTitle (stem ++ "_02_Jaccard_dendrogram.png"),
           jobBlock (Call.pairwise sel "overlap" true 5)
              (env.pairwiseRes sel "overlap") overlapTitle (stem ++ "_03_Overlap_dendrogram.png"),
           jobBlock (Call.euclidean (euclideanSel cutoff))
              (env.euclideanRes (euclideanSel cutoff)) euclTitle (stem ++ "_04_Euclidean_HCA.png")]
        (loadTrace ++ alignTrace ++ jt, jr)

/-- The whole `hca_Euclidian.py` run (lines 47-71): glob check, load loop,
then directly the Euclidean clustering job — no alignment stage and no
hotspot-cardinality validation of any kind. -/
def euclidianPipeline (env : Env) (cutoff : ℤ) (out : String) :
    List Call × Except String Unit :=
  if env.files = [] then
    ([], Except.error "No FTMap PDB files found.")
  else
    let loadTrace := env.files.map Call.load
    let (jt, jr) := jobBlock (Call.euclidean (euclideanSel cutoff))
      (env.euclideanRes (euclideanSel cutoff)) euclTitle out
    (loadTrace ++ jt, jr)

/-- The whole `hca_jaccard.py` run (lines 48-81): glob check, load loop,
unguarded alignment loop, hotspot validation, Jaccard job block. -/
def jaccardPipeline (env : Env) (cutoff : ℤ) (out : String) :
    List Call × Except String Unit :=
  if env.files = [] then
    ([], Except.error "No FTMap PDB files found.")
  else
    let loadTrace := env.files.map Call.load
    let (alignTrace, alignOutcome) := rawAlignStage env.objectList env.alignRes
    match alignOutcome with
    | Except.error e => (loadTrace ++ alignTrace, Except.error e)
    | Except.ok () =>
      match jaccardHotspotCheck (env.selCount (hotspotSel cutoff)) with
      | Except.error e => (loadTrace ++ alignTrace, Except.error e)
      | Except.ok () =>
        let (jt, jr) := jobBlock (Call.pairwise (hotspotSel cutoff) "jaccard" true 5)
          (env.pairwiseRes (hotspotSel cutoff) "jaccard") jaccardTitle out
        (loadTrace ++ alignTrace ++ jt, jr)

/-- Python true division, failing on a zero divisor as Python does. -/
def pyDiv (a b : ℚ) : Option ℚ := if b = 0 then none else some (a / b)

/-- `int(a / b)` on non-negative machine integers: floor division, failing
on a zero divisor as Python does. -/
def pyIntDiv (a b : ℕ) : Option ℕ := if b = 0 then none else some (a / b)

/-- The 30-slot proportional bar: `"=" * filled + "-" * (30 - filled)`. -/
def barString (filled : ℕ) : String :=
  String.mk (List.replicate filled '=') ++ String.mk (List.replicate (30 - filled) '-')

/-- The computed content of one rendered progress line. -/
structure ProgressLine where
  label : String
  bar : String
  current : ℕ
  total : ℕ
  elapsed : ℚ
  eta : ℚ
deriving DecidableEq

/-- `progress_bar` of `hca_all_analysis.py` (lines 44-57):
`elapsed = now - start`; `avg = elapsed / current if current > 0 else 0`;
`eta = avg * (total - current)`; `filled = int(30 * current / total)`.
The per-metric scripts (`hca_HO.py`, `hca_jaccard.py`, `hca_overlap.py`,
`hca_Euclidian.py`) spell the guard `if i` instead of `if current > 0`;
see `progress_bar_v`.  Returns `none` exactly when Python would raise
(ZeroDivisionError from `total = 0`). -/
def progress_bar (current total : ℕ) (now start : ℚ) (label : String) :
    Option ProgressLine :=
  let elapsed := now - start
  match (if 0 < current then pyDiv elapsed (current : ℚ) else some 0) with
  | none => none
  | some avg =>
    let eta := avg * ((total : ℚ) - (current : ℚ))
    match pyIntDiv (30 * current) total with
    | none => none
    | some filled =>
      some { label := label, bar := barString filled, current := current,
             total := total, elapsed := elapsed, eta := eta }

/-- `progress_bar` of the four per-metric scripts (e.g. `hca_Euclidian.py`
lines 31-40): identical computation with the zero guard spelled
`if i else 0`. -/
def progress_bar_v (i total : ℕ) (now start : ℚ) (label : String) :
    Option ProgressLine :=
  let elapsed := now - start
  match (if i ≠ 0 then pyDiv elapsed (i : ℚ) else some 0) with
  | none => none
  | some avg =>
    let eta := avg * ((total : ℚ) - (i : ℚ))
    match pyIntDiv (30 * i) total with
    | none => none
    | some filled =>
      some { label := label, bar := barString filled, current := i,
             total := total, elapsed := elapsed, eta := eta }

/-- Wall-clock duration between two clock readings. -/
def elapsedTime (stop start : ℚ) : ℚ := stop - start

/-- The artifact paths actually written in a trace, in order. -/
def savedFiles : List Call → List String
  | [] => []
  | Call.save p :: rest => p :: savedFiles rest
  | _ :: rest => savedFiles rest

/-- An alignment collaborator whose calls all succeed. -/
def arOk : String → Except String Unit := fun _ => Except.ok ()

/-- An alignment collaborator that fails exactly on object `"b"`. -/
def arFailB : String → Except String Unit :=
  fun o => if o = "b" then Except.error "fail" else Except.ok ()

/-- An environment with no files matched by the glob. -/
def envEmpty : Env :=
  { files := [], objectList := [], selCount := fun _ => 0,
    alignRes := fun _ => Except.ok (), pairwiseRes := fun _ _ => Except.ok (),
    euclideanRes := fun _ => Except.ok () }

/-- An environment where every collaborator call succeeds and every
selection resolves to 2 objects. -/
def envHappy : Env :=
  { files := ["f1.pdb"], objectList := ["m1", "m2"], selCount := fun _ => 2,
    alignRes := fun _ => Except.ok (), pairwiseRes := fun _ _ => Except.ok (),
    euclideanRes := fun _ => Except.ok () }

/-- An environment where the validated selection has 2 objects but the
distinct Euclidean selection resolves to 0 objects. -/
def envK15 : Env :=
  { files := ["f1.pdb"], objectList := ["m1", "m2"],
    selCount := fun s => if s = hotspotSel 20 then 2 else 0,
    alignRes := fun _ => Except.ok (), pairwiseRes := fun _ _ => Except.ok (),
    euclideanRes := fun _ => Except.ok () }

/-- An environment where every selection resolves to a single object. -/
def envLow : Env :=
  { files := ["f1.pdb"], objectList := ["m1"], selCount := fun _ => 1,
    alignRes := fun _ => Except.ok (), pairwiseRes := fun _ _ => Except.ok (),
    euclideanRes := fun _ => Except.ok () }

/-! ## Helper lemmas -/

/-- A string occurs verbatim in any concatenation having it as the middle
component. -/
theorem strContains_mid (s1 t s2 : String) : strContains (s1 ++ t ++ s2) t := by
  refine ⟨s1.data, s2.data, ?_⟩
  simp [String.data_append]

theorem strContains_allAnalysisHotspotMsg_count (k : ℕ) (cutoff : ℤ) :
    strContains (allAnalysisHotspotMsg k cutoff) (toString k) := by
  refine ⟨"Only ".data,
    (" hotspots found with S0 > " ++ toString cutoff ++
      ". At least two are required for HCA.").data, ?_⟩
  simp [allAnalysisHotspotMsg, String.data_append]

theorem strContains_allAnalysisHotspotMsg_cutoff (k : ℕ) (cutoff : ℤ) :
    strContains (allAnalysisHotspotMsg k cutoff) (toString cutoff) := by
  refine ⟨("Only " ++ toString k ++ " hotspots found with S0 > ").data,
    ". At least two are required for HCA.".data, ?_⟩
  simp [allAnalysisHotspotMsg, String.data_append]

theorem strContains_hoHotspotMsg_count (k : ℕ) (cutoff : ℤ) :
    strContains (hoHotspotMsg k cutoff) (toString k) := by
  refine ⟨"Only ".data,
    (" hotspots found with S0 > " ++ toString cutoff ++
      ". At least two are required for HO analysis.").data, ?_⟩
  simp [hoHotspotMsg, String.data_append]

theorem strContains_hoHotspotMsg_cutoff (k : ℕ) (cutoff : ℤ) :
    strContains (hoHotspotMsg k cutoff) (toString cutoff) := by
  refine ⟨("Only " ++ toString k ++ " hotspots found with S0 > ").data,
    ". At least two are required for HO analysis.".data, ?_⟩
  simp [hoHotspotMsg, String.data_append]

theorem strContains_overlapHotspotMsg_count (k : ℕ) (cutoff : ℤ) :
    strContains (overlapHotspotMsg k cutoff) (toString k) := by
  refine ⟨"Only ".data,
    (" hotspots found with S0 > " ++ toString cutoff ++
      ". At least two are required for overlap analysis.").data, ?_⟩
  simp [overlapHotspotMsg, String.data_append]

theorem strContains_overlapHotspotMsg_cutoff (k : ℕ) (cutoff : ℤ) :
    strContains (overlapHotspotMsg k cutoff) (toString cutoff) := by
  refine ⟨("Only " ++ toString k ++ " hotspots found with S0 > ").data,
    ". At least two are required for overlap analysis.".data, ?_⟩
  simp [overlapHotspotMsg, String.data_append]

theorem savedFiles_append (a b : List Call) :
    savedFiles (a ++ b) = savedFiles a ++ savedFiles b := by
  induction a with
  | nil => rfl
  | cons c rest ih => cases c <;> simp [savedFiles, ih]

theorem savedFiles_map_load (l : List String) :
    savedFiles (l.map Call.load) = [] := by
  induction l with
  | nil => rfl
  | cons x rest ih => simp [savedFiles, ih]

theorem savedFiles_map_align (l : List String) (ref : String) :
    savedFiles (l.map (fun o => Call.align o ref)) = [] := by
  induction l with
  | nil => rfl
  | cons x rest ih => simp [savedFiles, ih]

/-- Every object in the remaining batch is attempted by the `hca_HO.py`
alignment loop, whatever the per-item outcomes. -/
theorem hoAlignGo_attempts (ref : String) (ar : String → Except String Unit) :
    ∀ rest : List String, ∀ o ∈ rest, Call.align o ref ∈ hoAlignGo ref ar rest := by
  intro rest
  induction rest with
  | nil => intro o ho; cases ho
  | cons x xs ih =>
    intro o ho
    rcases List.mem_cons.mp ho with rfl | hmem
    · cases h : ar o <;> simp [hoAlignGo, h]
    · have hx := ih o hmem
      cases h : ar x <;> simp [hoAlignGo, h, hx]

/-- The `hca_HO.py` alignment loop records a warning line for every
per-item failure. -/
theorem hoAlignGo_warns (ref : String) (ar : String → Except String Unit) :
    ∀ rest : List String, ∀ o ∈ rest, ∀ e, ar o = Except.error e →
      Call.warn ("⚠️ Alignment failed for " ++ o ++ ": " ++ e) ∈
        hoAlignGo ref ar rest := by
  intro rest
  induction rest with
  | nil => intro o ho; cases ho
  | cons x xs ih =>
    intro o ho e he
    rcases List.mem_cons.mp ho with rfl | hmem
    · simp [hoAlignGo, he]
    · have hx := ih o hmem e he
      cases h : ar x <;> simp [hoAlignGo, h, hx]

/-! ## Claim theorems -/

/-- C1 (corrected): when the validated hotspot selection has fewer than 2
objects, `hca_all_analysis.py` stops with a message containing the
observed count and the cutoff verbatim, and its trace up to that point
contains no clustering call; the `hca_HO.py` and `hca_overlap.py`
validations do the same; `hca_jaccard.py` also raises before its
clustering call but with a constant message; `hca_Euclidian.py` performs
no cardinality validation at all — with any input files present it always
issues the `plot_euclidean_hca` call. -/
theorem hotspot_check_amended (env : Env) (cutoff : ℤ) (stem out : String)
    (refObj : String) (restObjs : List String)
    (hf : env.files ≠ [])
    (hobj : env.objectList = refObj :: restObjs)
    (hk : env.selCount (hotspotSel cutoff) < 2) :
    (∃ tr, allAnalysisPipeline env cutoff stem =
        (tr, Except.error
          (allAnalysisHotspotMsg (env.selCount (hotspotSel cutoff)) cutoff)) ∧
        ∀ c ∈ tr, isClusterCall c = false) ∧
    strContains (allAnalysisHotspotMsg (env.selCount (hotspotSel cutoff)) cutoff)
      (toString (env.selCount (hotspotSel cutoff))) ∧
    strContains (allAnalysisHotspotMsg (env.selCount (hotspotSel cutoff)) cutoff)
      (toString cutoff) ∧
    (∀ k : ℕ, k < 2 →
      hoHotspotCheck k cutoff = Except.error (hoHotspotMsg k cutoff) ∧
      strContains (hoHotspotMsg k cutoff) (toString k) ∧
      strContains (hoHotspotMsg k cutoff) (toString cutoff) ∧
      overlapHotspotCheck k cutoff = Except.error (overlapHotspotMsg k cutoff) ∧
      strContains (overlapHotspotMsg k cutoff) (toString k) ∧
      strContains (overlapHotspotMsg k cutoff) (toString cutoff) ∧
      jaccardHotspotCheck k = Except.error jaccardHotspotMsg) ∧
    Call.euclidean (euclideanSel cutoff) ∈ (euclidianPipeline env cutoff out).1 := by
  have hflen : ¬ env.files.length = 0 := by
    simpa [List.length_eq_zero] using hf
  refine ⟨⟨env.files.map Call.load ++
      restObjs.map (fun o => Call.align o refObj), ?_, ?_⟩, ?_, ?_, ?_, ?_⟩
  · simp [allAnalysisPipeline, hflen, hobj, ALIGN_STRUCTURES,
      allAnalysisAlignStage, allAnalysisHotspotCheck, hk]
  · intro c hc
    rcases List.mem_append.mp hc with hm | hm <;>
      · rcases List.mem_map.mp hm with ⟨x, _, rfl⟩
        rfl
  · exact strContains_allAnalysisHotspotMsg_count _ _
  · exact strContains_allAnalysisHotspotMsg_cutoff _ _
  · intro k hk2
    exact ⟨by simp [hoHotspotCheck, hk2], strContains_hoHotspotMsg_count _ _,
      strContains_hoHotspotMsg_cutoff _ _,
      by simp [overlapHotspotCheck, hk2], strContains_overlapHotspotMsg_count _ _,
      strContains_overlapHotspotMsg_cutoff _ _,
      by simp [jaccardHotspotCheck, hk2]⟩
  · cases h : env.euclideanRes (euclideanSel cutoff) <;>
      simp [euclidianPipeline, hf, jobBlock, h]

/-- C1 witness: a run with one input file, one loaded object and every
selection resolving to a single hotspot. -/
theorem hotspot_check_amended_witness :
    (∃ tr, allAnalysisPipeline envLow 20 "out" =
        (tr, Except.error
          (allAnalysisHotspotMsg (envLow.selCount (hotspotSel 20)) 20)) ∧
        ∀ c ∈ tr, isClusterCall c = false) ∧
    strContains (allAnalysisHotspotMsg (envLow.selCount (hotspotSel 20)) 20)
      (toString (envLow.selCount (hotspotSel 20))) ∧
    strContains (allAnalysisHotspotMsg (envLow.selCount (hotspotSel 20)) 20)
      (toString (20 : ℤ)) ∧
    (∀ k : ℕ, k < 2 →
      hoHotspotCheck k 20 = Except.error (hoHotspotMsg k 20) ∧
      strContains (hoHotspotMsg k 20) (toString k) ∧
      strContains (hoHotspotMsg k 20) (toString (20 : ℤ)) ∧
      overlapHotspotCheck k 20 = Except.error (overlapHotspotMsg k 20) ∧
      strContains (overlapHotspotMsg k 20) (toString k) ∧
      strContains (overlapHotspotMsg k 20) (toString (20 : ℤ)) ∧
      jaccardHotspotCheck k = Except.error jaccardHotspotMsg) ∧
    Call.euclidean (euclideanSel 20) ∈ (euclidianPipeline envLow 20 "o.png").1 :=
  hotspot_check_amended envLow 20 "out" "o.png" "m1" [] (by decide) rfl (by decide)

/-- C1 counterexample: at selection size 1 and cutoff 20, the
`hca_jaccard.py` validation raises a message containing neither the
observed count nor the cutoff, refuting the claim for that script. -/
theorem jaccard_check_message_lacks_values :
    jaccardHotspotCheck 1 = Except.error jaccardHotspotMsg ∧
    ¬ strContains jaccardHotspotMsg (toString (1 : ℕ)) ∧
    ¬ strContains jaccardHotspotMsg (toString (20 : ℤ)) :=
  ⟨rfl, by decide, by decide⟩

/-- C2 (corrected): the `hca_all_analysis.py` loop attempts every
remaining structure and never aborts, but records nothing about failures
(`except: pass`); the `hca_HO.py` loop attempts every remaining structure,
never aborts, and records a warning line per failure; neither removes any
structure from the repository. -/
theorem align_failure_tolerance_amended (ref : String) (rest : List String)
    (ar : String → Except String Unit) :
    allAnalysisAlignStage (ref :: rest) ar =
      (rest.map (fun o => Call.align o ref), Except.ok ()) ∧
    (∀ o ∈ rest, Call.align o ref ∈ hoAlignGo ref ar rest) ∧
    (∀ o ∈ rest, ∀ e, ar o = Except.error e →
      Call.warn ("⚠️ Alignment failed for " ++ o ++ ": " ++ e) ∈
        hoAlignGo ref ar rest) :=
  ⟨rfl, hoAlignGo_attempts ref ar rest, hoAlignGo_warns ref ar rest⟩

/-- C2 witness: with objects `a, b, c` and alignment failing on `b`, both
tolerant loops attempt `b` and the HO loop records a warning for it. -/
theorem align_failure_tolerance_amended_witness :
    allAnalysisAlignStage ["a", "b", "c"] arFailB =
      (["b", "c"].map (fun o => Call.align o "a"), Except.ok ()) ∧
    Call.align "b" "a" ∈ hoAlignGo "a" arFailB ["b", "c"] ∧
    Call.warn ("⚠️ Alignment failed for " ++ "b" ++ ": " ++ "fail") ∈
      hoAlignGo "a" arFailB ["b", "c"] :=
  ⟨(align_failure_tolerance_amended "a" ["b", "c"] arFailB).1,
   (align_failure_tolerance_amended "a" ["b", "c"] arFailB).2.1 "b" (by simp),
   (align_failure_tolerance_amended "a" ["b", "c"] arFailB).2.2 "b" (by simp)
     "fail" rfl⟩

/-- C2 counterexample: in `hca_jaccard.py`/`hca_overlap.py` the alignment
loop has no exception handling — at objects `a, b, c` with the alignment
call failing on `b`, the run aborts with that failure and `c` is never
attempted, refuting non-fatality for those scripts. -/
theorem raw_align_loop_aborts_on_failure :
    rawAlignStage ["a", "b", "c"] arFailB =
      ([Call.align "b" "a"], Except.error "fail") ∧
    Call.align "c" "a" ∉ (rawAlignStage ["a", "b", "c"] arFailB).1 :=
  ⟨rfl, by decide⟩

/-- C3 (corrected): only `hca_HO.py` guards the alignment stage — with
fewer than 2 eligible proteins it raises before any alignment call.  The
other scripts have no count check: with exactly one loaded structure the
stage completes silently with zero alignment calls, and with zero
structures it fails with an index error, not an insufficient-input
diagnostic. -/
theorem align_stage_guard_amended (proteins : List String) (o : String)
    (ar : String → Except String Unit) (hp : proteins.length < 2) :
    hoAlignStage proteins ar =
      ([], Except.error "Not enough protein structures for alignment.") ∧
    allAnalysisAlignStage [o] ar = ([], Except.ok ()) ∧
    rawAlignStage [o] ar = ([], Except.ok ()) ∧
    allAnalysisAlignStage [] ar =
      ([], Except.error "IndexError: list index out of range") ∧
    rawAlignStage [] ar =
      ([], Except.error "IndexError: list index out of range") := by
  refine ⟨?_, rfl, rfl, rfl, rfl⟩
  simp [hoAlignStage, hp]

/-- C3 witness at one protein / one structure. -/
theorem align_stage_guard_amended_witness :
    hoAlignStage ["p1"] arOk =
      ([], Except.error "Not enough protein structures for alignment.") ∧
    allAnalysisAlignStage ["s1"] arOk = ([], Except.ok ()) ∧
    rawAlignStage ["s1"] arOk = ([], Except.ok ()) ∧
    allAnalysisAlignStage [] arOk =
      ([], Except.error "IndexError: list index out of range") ∧
    rawAlignStage [] arOk =
      ([], Except.error "IndexError: list index out of range") :=
  align_stage_guard_amended ["p1"] "s1" arOk (by decide)

/-- C3 counterexample: the `hca_all_analysis.py` (and
`hca_jaccard.py`/`hca_overlap.py`) alignment stage executed with exactly
one structure completes without raising anything — no
insufficient-input failure occurs. -/
theorem align_stage_no_guard_counterexample :
    allAnalysisAlignStage ["structure1"] arOk = ([], Except.ok ()) ∧
    rawAlignStage ["structure1"] arOk = ([], Except.ok ()) :=
  ⟨rfl, rfl⟩

/-- C4 (confirmed): a glob expansion with zero paths makes each pipeline
fail immediately with the no-input diagnostic; the empty trace shows no
load, alignment, selection or clustering call was made. -/
theorem no_input_aborts_before_later_stages (env : Env) (cutoff : ℤ)
    (stem out1 out2 : String) (h : env.files = []) :
    allAnalysisPipeline env cutoff stem =
      ([], Except.error "No FTMap PDB files found. Check BASE_PATH.") ∧
    euclidianPipeline env cutoff out1 =
      ([], Except.error "No FTMap PDB files found.") ∧
    jaccardPipeline env cutoff out2 =
      ([], Except.error "No FTMap PDB files found.") := by
  have hl : env.files.length = 0 := by simp [h]
  exact ⟨by simp [allAnalysisPipeline, hl],
    by simp [euclidianPipeline, h],
    by simp [jaccardPipeline, h]⟩

/-- C4 witness on the empty environment. -/
theorem no_input_aborts_before_later_stages_witness :
    allAnalysisPipeline envEmpty 20 "out" =
      ([], Except.error "No FTMap PDB files found. Check BASE_PATH.") ∧
    euclidianPipeline envEmpty 20 "o1.png" =
      ([], Except.error "No FTMap PDB files found.") ∧
    jaccardPipeline envEmpty 20 "o2.png" =
      ([], Except.error "No FTMap PDB files found.") :=
  no_input_aborts_before_later_stages envEmpty 20 "out" "o1.png" "o2.png" rfl



/-- C5: for every Progress Reporter call with `total ≥ 1` and
`1 ≤ current ≤ total` (and a start time not after now, as at every call
site), the computed eta equals `(elapsed/current) × (total − current)`,
is non-negative, and equals `0` when `current = total`; this holds for
both spellings of the progress bar. -/
theorem progress_eta_correct (current total : ℕ) (now start : ℚ) (label : String)
    (h1 : 1 ≤ current) (h2 : current ≤ total) (h3 : start ≤ now) :
    ∃ line, progress_bar current total now start label = some line ∧
      progress_bar_v current total now start label = some line ∧
      line.eta = ((now - start) / (current : ℚ)) * ((total : ℚ) - (current : ℚ)) ∧
      0 ≤ line.eta ∧
      (current = total → line.eta = 0) := by
  have hc : 0 < current := h1
  have ht : total ≠ 0 := by omega
  have hcq : (current : ℚ) ≠ 0 := by exact_mod_cast hc.ne'
  refine ⟨{ label := label, bar := barString ((30 * current) / total),
            current := current, total := total, elapsed := now - start,
            eta := ((now - start) / (current : ℚ)) *
              ((total : ℚ) - (current : ℚ)) }, ?_, ?_, rfl, ?_, ?_⟩
  · simp [progress_bar, pyDiv, pyIntDiv, hc, hcq, ht]
  · simp [progress_bar_v, pyDiv, pyIntDiv, hc.ne', hcq, ht]
  · have he : 0 ≤ now - start := sub_nonneg.2 h3
    have hcc : (0 : ℚ) ≤ (total : ℚ) - (current : ℚ) := by
      have : (current : ℚ) ≤ (total : ℚ) := by exact_mod_cast h2
      linarith
    have hdiv : 0 ≤ (now - start) / (current : ℚ) :=
      div_nonneg he (by positivity)
    exact mul_nonneg hdiv hcc
  · intro h
    subst h
    simp

/-- C5 witness at `current = 2`, `total = 3`, `now = 5`, `start = 1`. -/
theorem progress_eta_correct_witness :
    ∃ line, progress_bar 2 3 5 1 "Loading" = some line ∧
      progress_bar_v 2 3 5 1 "Loading" = some line ∧
      line.eta = (((5 : ℚ) - 1) / (2 : ℚ)) * (((3 : ℕ) : ℚ) - ((2 : ℕ) : ℚ)) ∧
      0 ≤ line.eta ∧
      ((2 : ℕ) = 3 → line.eta = 0) :=
  progress_eta_correct 2 3 5 1 "Loading" (by norm_num) (by norm_num) (by norm_num)

/-- C10: the progress bar is total at `current = 0` for every `total ≥ 1`:
the division guard routes the `current = 0` case to `avg = 0`, so the call
produces a rendered line (eta `0`, empty bar) instead of raising; this
holds for both spellings of the guard. -/
theorem progress_bar_total_at_zero_current (total : ℕ) (now start : ℚ)
    (label : String) (h : 1 ≤ total) :
    ∃ line, progress_bar 0 total now start label = some line ∧
      progress_bar_v 0 total now start label = some line ∧
      line.eta = 0 ∧ line.bar = barString 0 ∧
      line.current = 0 ∧ line.total = total := by
  have ht : total ≠ 0 := by omega
  refine ⟨{ label := label, bar := barString 0, current := 0, total := total,
            elapsed := now - start, eta := 0 }, ?_, ?_, rfl, rfl, rfl, rfl⟩
  · simp [progress_bar, pyDiv, pyIntDiv, ht, barString]
  · simp [progress_bar_v, pyDiv, pyIntDiv, ht, barString]

/-- C10 witness at `total = 5`. -/
theorem progress_bar_total_at_zero_current_witness :
    ∃ line, progress_bar 0 5 7 2 "Loading" = some line ∧
      progress_bar_v 0 5 7 2 "Loading" = some line ∧
      line.eta = 0 ∧ line.bar = barString 0 ∧
      line.current = 0 ∧ line.total = 5 :=
  progress_bar_total_at_zero_current 5 7 2 "Loading" (by norm_num)

/-- C6 (code bug): run `hca_all_analysis.py` configured with cutoff 30 —
the hotspot selection string embeds 30, but the persisted HO artifact is
titled with the hard-coded literal `S0 > 20`, which does not contain the
configured cutoff; likewise for the other three hard-coded titles. -/
theorem title_ignores_cutoff :
    Call.setTitle hoTitle ∈ (allAnalysisPipeline envHappy 30 "out").1 ∧
    strContains (hotspotSel 30) (toString (30 : ℤ)) ∧
    hoTitle = "Hotspot Overlap (HO) | S0 > 20" ∧
    ¬ strContains hoTitle (toString (30 : ℤ)) ∧
    ¬ strContains jaccardTitle (toString (30 : ℤ)) ∧
    ¬ strContains overlapTitle (toString (30 : ℤ)) ∧
    ¬ strContains euclTitle (toString (30 : ℤ)) :=
  ⟨by decide, by decide, rfl, by decide, by decide, by decide, by decide⟩

/-- C7 (corrected): a clustering job block closes the plot on the success
path, but on a failing clustering call the exception propagates and
`plt.close()` is never reached, leaving the plot open. -/
theorem job_block_close_amended (c : Call) (res : Except String Unit)
    (t out : String) (hc : isClusterCall c = true) :
    (res = Except.ok () →
      jobBlock c res t out =
        ([c, Call.setTitle t, Call.save out, Call.closeFig], Except.ok ()) ∧
      Call.closeFig ∈ (jobBlock c res t out).1) ∧
    (∀ e, res = Except.error e →
      jobBlock c res t out = ([c], Except.error e) ∧
      Call.closeFig ∉ (jobBlock c res t out).1) := by
  constructor
  · rintro rfl
    exact ⟨rfl, by simp [jobBlock]⟩
  · rintro e rfl
    refine ⟨rfl, ?_⟩
    simp only [jobBlock, List.mem_singleton]
    intro heq
    rw [← heq] at hc
    simp [isClusterCall] at hc

/-- C7 witness: a failing HO clustering call leaves no close in the
trace. -/
theorem job_block_close_amended_witness :
    jobBlock (Call.pairwise (hotspotSel 20) "ho" false (3/2))
        (Except.error "AnalysisFailure") hoTitle "out_01_HO_dendrogram.png" =
      ([Call.pairwise (hotspotSel 20) "ho" false (3/2)],
        Except.error "AnalysisFailure") ∧
    Call.closeFig ∉ (jobBlock (Call.pairwise (hotspotSel 20) "ho" false (3/2))
        (Except.error "AnalysisFailure") hoTitle "out_01_HO_dendrogram.png").1 :=
  (job_block_close_amended (Call.pairwise (hotspotSel 20) "ho" false (3/2))
      (Except.error "AnalysisFailure") hoTitle "out_01_HO_dendrogram.png"
      rfl).2 "AnalysisFailure" rfl

/-- C7 counterexample: at a concrete failing clustering call, the job
block's trace is exactly the clustering call — no `plt.close()` — and the
failure propagates, refuting release on the failure path. -/
theorem job_block_no_close_on_failure :
    jobBlock (Call.euclidean (euclideanSel 20)) (Except.error "boom")
        euclTitle "out_04_Euclidean_HCA.png" =
      ([Call.euclidean (euclideanSel 20)], Except.error "boom") ∧
    Call.closeFig ∉ [Call.euclidean (euclideanSel 20)] :=
  ⟨rfl, by decide⟩

/-- C8 (confirmed): a successful comprehensive run's final report lists
exactly 4 artifact paths, equal (and equally ordered) to the artifacts
saved by the four jobs in declaration order, and with a monotone clock the
total elapsed time bounds the sum of the per-job elapsed times from
above. -/
theorem final_report_four_artifacts (env : Env) (cutoff : ℤ) (stem : String)
    (refObj : String) (restObjs : List String)
    (hf : env.files ≠ [])
    (hobj : env.objectList = refObj :: restObjs)
    (hk : ¬ env.selCount (hotspotSel cutoff) < 2)
    (pho : env.pairwiseRes (hotspotSel cutoff) "ho" = Except.ok ())
    (pja : env.pairwiseRes (hotspotSel cutoff) "jaccard" = Except.ok ())
    (pov : env.pairwiseRes (hotspotSel cutoff) "overlap" = Except.ok ())
    (peu : env.euclideanRes (euclideanSel cutoff) = Except.ok ())
    (g0 s1 e1 s2 e2 s3 e3 s4 e4 tEnd : ℚ)
    (ht : g0 ≤ s1 ∧ s1 ≤ e1 ∧ e1 ≤ s2 ∧ s2 ≤ e2 ∧ e2 ≤ s3 ∧ s3 ≤ e3 ∧
      e3 ≤ s4 ∧ s4 ≤ e4 ∧ e4 ≤ tEnd) :
    (allAnalysisPipeline env cutoff stem).2 = Except.ok () ∧
    savedFiles (allAnalysisPipeline env cutoff stem).1 = allAnalysisReport stem ∧
    (allAnalysisReport stem).length = 4 ∧
    elapsedTime e1 s1 + elapsedTime e2 s2 + elapsedTime e3 s3 +
      elapsedTime e4 s4 ≤ elapsedTime tEnd g0 := by
  have hflen : ¬ env.files.length = 0 := by
    simpa [List.length_eq_zero] using hf
  have hpipe : allAnalysisPipeline env cutoff stem =
      (env.files.map Call.load ++
        restObjs.map (fun o => Call.align o refObj) ++
        [Call.pairwise (hotspotSel cutoff) "ho" false (3/2),
         Call.setTitle hoTitle, Call.save (stem ++ "_01_HO_dendrogram.png"),
         Call.closeFig,
         Call.pairwise (hotspotSel cutoff) "jaccard" true 5,
         Call.setTitle jaccardTitle,
         Call.save (stem ++ "_02_Jaccard_dendrogram.png"), Call.closeFig,
         Call.pairwise (hotspotSel cutoff) "overlap" true 5,
         Call.setTitle overlapTitle,
         Call.save (stem ++ "_03_Overlap_dendrogram.png"), Call.closeFig,
         Call.euclidean (euclideanSel cutoff), Call.setTitle euclTitle,
         Call.save (stem ++ "_04_Euclidean_HCA.png"), Call.closeFig],
       Except.ok ()) := by
    simp [allAnalysisPipeline, hflen, hobj, ALIGN_STRUCTURES,
      allAnalysisAlignStage, allAnalysisHotspotCheck, hk, seqBlocks, jobBlock,
      pho, pja, pov, peu]
  refine ⟨by rw [hpipe], ?_, rfl, ?_⟩
  · rw [hpipe]
    simp only [savedFiles_append, savedFiles_map_load, savedFiles_map_align,
      List.nil_append]
    rfl
  · obtain ⟨h1, h2, h3, h4, h5, h6, h7, h8, h9⟩ := ht
    simp only [elapsedTime]
    linarith

/-- C8 witness on the all-success environment with a concrete monotone
clock. -/
theorem final_report_four_artifacts_witness :
    (allAnalysisPipeline envHappy 20 "out").2 = Except.ok () ∧
    savedFiles (allAnalysisPipeline envHappy 20 "out").1 =
      allAnalysisReport "out" ∧
    (allAnalysisReport "out").length = 4 ∧
    elapsedTime 3 2 + elapsedTime 5 4 + elapsedTime 7 6 + elapsedTime 9 8 ≤
      elapsedTime 10 0 :=
  final_report_four_artifacts envHappy 20 "out" "m1" ["m2"] (by decide) rfl
    (by decide) rfl rfl rfl rfl 0 2 3 4 5 6 7 8 9 10
    (by norm_num)

/-- C9 (confirmed): the minimum-cardinality validation of
`hca_all_analysis.py` is applied only to the `(*.B* *.D*)` selection
string; the Euclidean job uses the distinct `*.K15_*` selection string,
never checked — so there is a repository state where validation passes,
the run succeeds, and `plot_euclidean_hca` is invoked on a selection of
size 0 < 2. -/
theorem euclidean_selection_unvalidated :
    hotspotSel 20 ≠ euclideanSel 20 ∧
    2 ≤ envK15.selCount (hotspotSel 20) ∧
    envK15.selCount (euclideanSel 20) < 2 ∧
    (allAnalysisPipeline envK15 20 "out").2 = Except.ok () ∧
    Call.euclidean (euclideanSel 20) ∈ (allAnalysisPipeline envK15 20 "out").1 :=
  ⟨by decide, by decide, by decide, rfl, by decide⟩

end FTMapHCA
